import Mathlib

/-!
Verification of the glu-code transcription session core.

The source under scrutiny is the TUI session manager (`src/tui/app.ts`,
provided as `src/unnamed/part_002`), the prompt store (`src/unnamed/part_000`),
and the STT helper subprocess (`scripts/stt-helper.cjs`, concatenated into
`src/scripts/file-loader.mjs`).  JavaScript strings are embedded as `List Char`
so that `String.prototype.trim` can be reasoned about by structural induction;
JavaScript truthiness of a string is emptiness of the list, and a field that
may be `undefined` is an `Option`.
-/

namespace GluCode

/-- JavaScript strings, embedded as lists of characters. -/
abbrev Str := List Char

/-- The common whitespace characters removed by `String.prototype.trim`
(space, tab, line feed, carriage return, vertical tab, form feed). -/
def isWs (c : Char) : Bool :=
  c == ' ' || c == '\t' || c == '\n' || c == '\r' || c == '\x0b' || c == '\x0c'

/-- `String.prototype.trim`: drop whitespace from both ends. -/
def trim (s : Str) : Str :=
  ((s.dropWhile isWs).reverse.dropWhile isWs).reverse

/-- A string with no leading and no trailing whitespace. -/
def Trimmed (s : Str) : Prop :=
  (∀ c, s.head? = some c → isWs c = false) ∧ (∀ c, s.getLast? = some c → isWs c = false)

/-- A saved prompt row (`prompts` table of `src/unnamed/part_000`): `id`,
`created_at`, `text`. -/
structure PromptRow where
  id : Nat
  createdAt : Str
  text : Str
deriving DecidableEq, Repr

/-- The mutable TUI state (`AppState` of `src/unnamed/part_002`) together
with the renderable the handlers write (`statusText.content`) and ghost
fields recording the externally visible effects: pids spawned, pids sent
SIGTERM, and the prompt store contents.  `recorder` holds the pid of the
current `RecorderProcess`, `none` when `state.recorder` is `undefined`;
`lastRunInfo` stands for the formatted `formatRun(state.lastRun)` text
(locale date formatting is environment-owned, so the formatted value is
stored directly). -/
structure St where
  currentPrompt : Str
  activePromptId : Option Nat
  createdAt : Option Str
  lastPartial : Option Str
  isRecording : Bool
  isEditing : Bool
  historyOpen : Bool
  modelPath : Str
  lastRunInfo : Option Str
  recorder : Option Nat
  statusText : Str
  spawned : List Nat
  killed : List Nat
  nextPid : Nat
  store : List PromptRow
  nextRowId : Nat
deriving DecidableEq, Repr

/-- JavaScript truthiness of a possibly-`undefined` string. -/
def strTruthy : Option Str → Bool
  | some t => !t.isEmpty
  | none => false

/-- `node:path` `basename` for ordinary paths: strip trailing slashes, then
keep the part after the last slash (external library function). -/
def basename (p : Str) : Str :=
  ((p.reverse.dropWhile (fun c => c == '/')).takeWhile (fun c => !(c == '/'))).reverse

/-- `buildStatusLine` (part_002 lines 75-90): the status bar text. -/
def buildStatusLine (s : St) : Str :=
  let mode := if s.isRecording then "Recording".data
    else if s.isEditing then "Editing".data else "Idle".data
  let partialLeaf := if strTruthy s.lastPartial then " …partial".data else []
  let idLabel := match s.activePromptId with
    | some id => if id ≠ 0 then "#".data ++ (toString id).data else "unsaved".data
    | none => "unsaved".data
  let runInfo := match s.lastRunInfo with
    | some r => " | Last run: ".data ++ r
    | none => []
  "Mode: ".data ++ mode ++ partialLeaf ++ " | Prompt: ".data ++ idLabel
    ++ " | Model: ".data ++ basename s.modelPath ++ runInfo
    ++ " | Keys: R record · Ctrl+E edit · Ctrl+S save · Ctrl+Q exit edit · H history · C codex · Y copy · Q quit".data

/-- `renderPromptPreview` (part_002 lines 605-612): what the prompt pane
shows — the trimmed draft, with the live partial joined on (plus an
ellipsis) while recording. -/
def renderPromptPreview (s : St) : Str :=
  let base := trim s.currentPrompt
  match s.lastPartial with
  | some lp =>
    if s.isRecording && !(trim lp).isEmpty then
      (if !base.isEmpty then base ++ ' ' :: trim lp else trim lp) ++ " …".data
    else base
  | none => base

/-- `refreshPromptView` (part_002 lines 92-101): pushes the preview into the
editor widget (presentation) and recomputes the status line; the only state
field it writes is `statusText`. -/
def refreshPromptView (s : St) : St :=
  { s with statusText := buildStatusLine s }

/-- `appendFinalText` (part_002 lines 103-109): ignore text that trims to
empty; otherwise join the trimmed text onto the trimmed draft with a single
space (or use it alone when the draft is empty), clear the live partial, and
refresh the view. -/
def appendFinalText (text : Str) (s : St) : St :=
  if (trim text).isEmpty then s
  else
    let existing := trim s.currentPrompt
    refreshPromptView
      { s with
        currentPrompt := if !existing.isEmpty then existing ++ ' ' :: trim text
          else trim text,
        lastPartial := none }

/-- A decoded line as `handleSttEvent` sees it: the `type`, `text` and
`error` properties of the parsed JSON object, each possibly `undefined`. -/
structure RawEvt where
  type : Option Str
  text : Option Str
  error : Option Str
deriving DecidableEq, Repr

/-- `handleSttEvent` (part_002 lines 342-352).  `none` means the handler
threw: the only throwing path is the `final` branch with `evt.text`
`undefined`, where `text.trim()` inside `appendFinalText` raises a
`TypeError` before any state is written.  A `partial` event stores
`evt.text` (even `undefined`) as the live partial; an `error` event writes
the status line (template literals print `undefined` as the word
`undefined`); an unrecognized `type` is a no-op. -/
def handleSttEvent (evt : RawEvt) (s : St) : Option St :=
  if evt.type = some ("partial".data) then
    some (refreshPromptView { s with lastPartial := evt.text })
  else if evt.type = some ("final".data) then
    match evt.text with
    | none => none
    | some t => some (appendFinalText t s)
  else if evt.type = some ("error".data) then
    some { s with statusText := "STT error: ".data
      ++ (match evt.error with | some e => e | none => "undefined".data) }
  else some s

/-- A raw stdout line after `JSON.parse`: either the parse threw (`invalid`)
or it produced a value whose `type`/`text`/`error` properties are the given
options. -/
inductive LineParse where
  | invalid
  | parsed (evt : RawEvt)
deriving DecidableEq, Repr

/-- The stdout line handler (part_002 lines 290-297): parse the line and
feed it to `handleSttEvent`; any exception — from the parse or from the
handler itself — is swallowed and the state is left as it was. -/
def onStdoutLine (l : LineParse) (s : St) : St :=
  match l with
  | .invalid => s
  | .parsed evt =>
    match handleSttEvent evt s with
    | some s1 => s1
    | none => s

/-- `stopRecorder` (part_002 lines 335-340): no-op without a live handle;
otherwise SIGTERM the subprocess and clear the handle. -/
def stopRecorder (s : St) : St :=
  match s.recorder with
  | none => s
  | some pid => { s with recorder := none, killed := s.killed ++ [pid] }

/-- `startRecorder` (part_002 lines 282-297): first `stopRecorder()`, then
spawn the helper and install it as the current handle.  The stdout, stderr
and exit subscriptions it registers are modelled by `onStdoutLine` and
`onExit`, applied when the corresponding events are delivered. -/
def startRecorder (s : St) : St :=
  let s0 := stopRecorder s
  { s0 with
    recorder := some s0.nextPid,
    spawned := s0.spawned ++ [s0.nextPid],
    nextPid := s0.nextPid + 1 }

/-- `startRecording` (part_002 lines 111-122): enter Recording, reset the
draft, the live partial, the active prompt and the last-run info, refresh,
then launch the recorder. -/
def startRecording (s : St) : St :=
  startRecorder (refreshPromptView
    { s with
      isRecording := true,
      isEditing := false,
      currentPrompt := [],
      lastPartial := none,
      activePromptId := none,
      lastRunInfo := none })

/-- `stopRecording` (part_002 lines 124-130): no-op unless recording;
otherwise leave Recording, clear the live partial, stop the recorder and
refresh the view. -/
def stopRecording (s : St) : St :=
  if s.isRecording then
    refreshPromptView (stopRecorder { s with isRecording := false, lastPartial := none })
  else s

/-- `toggleRecording` (part_002 lines 132-138). -/
def toggleRecording (s : St) : St :=
  if s.isRecording then stopRecording s else startRecording s

/-- The diagnostic detail of the exit handler (part_002 lines 320-326): the
exiting process's accumulated stderr if any, else the exit code, else the
signal, else a fixed fallback. -/
def exitDetail (lastStderr : Str) (code : Option Int) (signal : Option Str) : Str :=
  if !lastStderr.isEmpty then lastStderr
  else match code with
    | some c => "code ".data ++ (toString c).data
    | none =>
      match signal with
      | some sig => if !sig.isEmpty then "signal ".data ++ sig
          else "stt helper exited".data
      | none => "stt helper exited".data

/-- The subprocess `exit` handler (part_002 lines 317-332), parameterized by
the values the closure captured for the exiting process: its accumulated
stderr, and the `(code, signal)` pair Node delivers.  If the TUI is still
`isRecording` it forces the flag off and writes the diagnostic; otherwise it
does nothing at all.  The handler never consults which process exited and
never clears `state.recorder`. -/
def onExit (lastStderr : Str) (code : Option Int) (signal : Option Str) (s : St) : St :=
  if s.isRecording then
    { s with
      isRecording := false,
      statusText := "Recording stopped (".data
        ++ exitDetail lastStderr code signal ++ ").".data }
  else s

/-- `savePrompt` (part_000 lines 56-62): insert a new row with the current
timestamp and return the record; the row id is the autoincrement counter. -/
def savePrompt (now : Str) (text : Str) (store : List PromptRow) (nextRowId : Nat) :
    PromptRow × List PromptRow × Nat :=
  let rec0 : PromptRow := { id := nextRowId, createdAt := now, text := text }
  (rec0, store ++ [rec0], nextRowId + 1)

/-- `updatePrompt` (part_000 lines 64-74): look the row up by id — throwing
(`none`) when absent — then overwrite its text, keeping its `created_at`. -/
def updatePrompt (id : Nat) (text : Str) (store : List PromptRow) :
    Option (PromptRow × List PromptRow) :=
  match store.find? (fun r => r.id == id) with
  | none => none
  | some row =>
    some ({ id := id, createdAt := row.createdAt, text := text },
      store.map (fun r => if r.id == id then { r with text := text } else r))

/-- `handleSave` (part_002 lines 160-181), with the wall clock passed in as
`now`.  An empty trimmed draft only writes the status line and returns
before touching the store.  Otherwise a truthy `activePromptId` updates that
row (throwing — `none` — when it no longer exists) and a falsy one inserts a
new row; the state then records the returned id, timestamp and a status
message.  `refreshHistory`/`updatePromptTitle` are presentation-only. -/
def handleSave (now : Str) (s : St) : Option St :=
  let content := trim s.currentPrompt
  if content.isEmpty then
    some { s with statusText := "Nothing to save – prompt is empty.".data }
  else
    let saved : Option (PromptRow × List PromptRow × Nat) :=
      match s.activePromptId with
      | some id =>
        if id ≠ 0 then
          (updatePrompt id content s.store).map (fun p => (p.1, p.2, s.nextRowId))
        else some (savePrompt now content s.store s.nextRowId)
      | none => some (savePrompt now content s.store s.nextRowId)
    saved.map fun p =>
      { s with
        store := p.2.1,
        nextRowId := p.2.2,
        activePromptId := some p.1.id,
        createdAt := some p.1.createdAt,
        statusText := "Saved prompt #".data ++ (toString p.1.id).data
          ++ " (".data ++ p.1.createdAt ++ ").".data }

/-- What the STT helper does at boot (`scripts/stt-helper.cjs`, lines 39-42
of `src/scripts/file-loader.mjs` after its separator): when the model path
does not exist it prints a JSON error object to stderr and exits with code
1 before loading the recognizer; otherwise recognition starts. -/
inductive HelperBoot where
  | configError (errorMsg : Str) (exitCode : Nat)
  | started
deriving DecidableEq, Repr

/-- The helper's model-path check, with filesystem existence passed in. -/
def sttHelperBoot (modelExists : Bool) (modelPath : Str) : HelperBoot :=
  if modelExists then .started
  else .configError ("Model path not found: ".data ++ modelPath) 1

/-- `safeParseText` (stt-helper): the helper emits a `final` event only when
the recognizer result carries a `text` property whose trimmed value is
nonempty, and the emitted text is that trimmed value. -/
def safeParseText (payloadText : Option Str) : Option Str :=
  match payloadText with
  | some t =>
    if !t.isEmpty && !(trim t).isEmpty then some (trim t) else none
  | none => none

/-- `safeParsePartial` (stt-helper): same rule for `partial` events. -/
def safeParsePartial (payloadPartial : Option Str) : Option Str :=
  match payloadPartial with
  | some t =>
    if !t.isEmpty && !(trim t).isEmpty then some (trim t) else none
  | none => none

/-- Folding a sequence of `final` texts into the state via
`appendFinalText`, left to right. -/
def applyFinals (s : St) (fs : List Str) : St :=
  fs.foldl (fun st t => appendFinalText t st) s

/-- The individually trimmed texts of a sequence, dropping those that trim
to empty. -/
def cleanFinals (fs : List Str) : List Str :=
  (fs.map trim).filter (fun t => !t.isEmpty)

/-- Single-space join of a list of pieces. -/
def joinSp : List Str → Str
  | [] => []
  | [p] => p
  | p :: q :: ps => p ++ ' ' :: joinSp (q :: ps)

/-- The state `startTui` builds before any key is pressed (part_002 lines
50-56), over an arbitrary model path, with empty effect logs and store. -/
def initSt (modelPath : Str) : St :=
  { currentPrompt := []
    activePromptId := none
    createdAt := none
    lastPartial := none
    isRecording := false
    isEditing := false
    historyOpen := true
    modelPath := modelPath
    lastRunInfo := none
    recorder := none
    statusText := []
    spawned := []
    killed := []
    nextPid := 0
    store := []
    nextRowId := 1 }

/-- Whether a decoded line is a JSON object whose `type` is `"partial"` —
the one malformed shape whose handling still writes a state field. -/
def isPartialLine : LineParse → Bool
  | .invalid => false
  | .parsed e => if e.type = some ("partial".data) then true else false

/-- A malformed stdout line in the sense of §4.1 of the spec: unparsable
text, a value that is not one of the three event shapes, a `partial`/`final`
object without a `text` property or whose text trims to empty, or an
`error` object without a message. -/
def malformedLine : LineParse → Bool
  | .invalid => true
  | .parsed e =>
    if e.type = some ("partial".data) ∨ e.type = some ("final".data) then
      match e.text with
      | none => true
      | some t => (trim t).isEmpty
    else if e.type = some ("error".data) then
      match e.error with
      | none => true
      | some m => m.isEmpty
    else true

/-- The stale-exit race: start a session (pid 0), stop it (SIGTERM sent,
exit still pending), start a new session (pid 1) — all before pid 0's exit
is delivered. -/
def c9Before : St :=
  startRecording (stopRecording (startRecording (initSt ("/model".data))))

/-- Delivery of pid 0's pending SIGTERM exit (`code` null, `signal`
`"SIGTERM"`, no stderr) while the new session of `c9Before` is recording. -/
def c9After : St :=
  onExit [] none (some ("SIGTERM".data)) c9Before

/-- A recording state with a live partial and a nonempty draft, used as a
concrete instantiation point. -/
def c3W : St :=
  { initSt ("/m".data) with
    isRecording := true,
    lastPartial := some ("old".data),
    currentPrompt := "base".data }

/-- A recording state with accumulated Draft `"draft one"` (the abnormal
exit scenario of §8 of the spec). -/
def c8W : St :=
  { initSt ("/m".data) with
    isRecording := true,
    currentPrompt := "draft one".data }

/-- An idle state whose Draft is whitespace only. -/
def c10W : St :=
  { initSt ("/m".data) with currentPrompt := "   ".data }

/-!  ## Theorems: string trimming  -/

theorem head_dropWhile_nws (l : Str) (c : Char)
    (h : (l.dropWhile isWs).head? = some c) : isWs c = false := by
  induction l with
  | nil => simp [List.dropWhile] at h
  | cons x xs ih =>
    rw [List.dropWhile_cons] at h
    by_cases hx : isWs x
    · rw [if_pos hx] at h
      exact ih h
    · rw [if_neg hx] at h
      simp only [List.head?_cons, Option.some.injEq] at h
      rw [← h]
      simpa using hx

theorem dropWhile_eq_self_of_head (l : Str)
    (h : ∀ c, l.head? = some c → isWs c = false) : l.dropWhile isWs = l := by
  cases l with
  | nil => rfl
  | cons x xs =>
    rw [List.dropWhile_cons, if_neg]
    simp [h x rfl]

theorem getLast?_dropWhile_of_ne_nil (l : Str) (h : l.dropWhile isWs ≠ []) :
    (l.dropWhile isWs).getLast? = l.getLast? := by
  induction l with
  | nil => simp at h
  | cons x xs ih =>
    rw [List.dropWhile_cons]
    by_cases hx : isWs x
    · rw [if_pos hx]
      rw [List.dropWhile_cons, if_pos hx] at h
      rw [ih h]
      have hxs : xs ≠ [] := by
        intro he
        rw [he] at h
        simp at h
      cases xs with
      | nil => exact absurd rfl hxs
      | cons y ys => rw [List.getLast?_cons_cons]
    · rw [if_neg hx]

theorem getLast?_append_ne_nil (a b : Str) (hb : b ≠ []) :
    (a ++ b).getLast? = b.getLast? := by
  induction a with
  | nil => rfl
  | cons x xs ih =>
    cases hxb : xs ++ b with
    | nil =>
      rcases List.append_eq_nil.mp hxb with ⟨_, h2⟩
      exact absurd h2 hb
    | cons y ys =>
      simp only [List.cons_append, hxb, List.getLast?_cons_cons]
      rw [← hxb, ih]

/-- The result of `trim` has no whitespace at either end. -/
theorem trimmed_trim (s : Str) : Trimmed (trim s) := by
  constructor
  · intro c hc
    unfold trim at hc
    rw [List.head?_reverse] at hc
    have hD : (s.dropWhile isWs).reverse.dropWhile isWs ≠ [] := by
      intro h0
      rw [h0] at hc
      simp at hc
    rw [getLast?_dropWhile_of_ne_nil _ hD, List.getLast?_reverse] at hc
    exact head_dropWhile_nws _ _ hc
  · intro c hc
    unfold trim at hc
    rw [List.getLast?_reverse] at hc
    exact head_dropWhile_nws _ _ hc

/-- `trim` fixes strings that are already trimmed. -/
theorem trim_eq_self (s : Str) (h : Trimmed s) : trim s = s := by
  unfold trim
  rw [dropWhile_eq_self_of_head _ h.1]
  rw [dropWhile_eq_self_of_head]
  · exact s.reverse_reverse
  · intro c hc
    rw [List.head?_reverse] at hc
    exact h.2 c hc

theorem trim_idem (s : Str) : trim (trim s) = trim s :=
  trim_eq_self _ (trimmed_trim s)

/-- Joining two trimmed nonempty strings with a single space is trimmed. -/
theorem trimmed_join (a b : Str) (ha : Trimmed a) (hna : a ≠ [])
    (hb : Trimmed b) (hnb : b ≠ []) : Trimmed (a ++ ' ' :: b) := by
  constructor
  · intro c hc
    cases a with
    | nil => exact absurd rfl hna
    | cons x xs =>
      simp only [List.cons_append, List.head?_cons, Option.some.injEq] at hc
      rw [← hc]
      exact ha.1 x rfl
  · intro c hc
    rw [getLast?_append_ne_nil _ _ (by simp)] at hc
    cases b with
    | nil => exact absurd rfl hnb
    | cons y ys =>
      rw [List.getLast?_cons_cons] at hc
      exact hb.2 c hc

/-!  ## Theorems: draft accumulation  -/

theorem isEmpty_false_of_ne_nil (l : Str) (h : l ≠ []) : l.isEmpty = false := by
  cases l with
  | nil => exact absurd rfl h
  | cons x xs => rfl

theorem eq_nil_of_isEmpty_true (l : Str) (h : l.isEmpty = true) : l = [] := by
  cases l with
  | nil => rfl
  | cons x xs => simp [List.isEmpty] at h

theorem joinSp_shift (d q : Str) (rest : List Str) :
    joinSp ((d ++ ' ' :: q) :: rest) = d ++ ' ' :: joinSp (q :: rest) := by
  cases rest with
  | nil => rfl
  | cons r rs => simp [joinSp, List.append_assoc]

theorem joinSp_ne_nil (q : Str) (rs : List Str) (hq : q ≠ []) :
    joinSp (q :: rs) ≠ [] := by
  cases rs with
  | nil => simpa [joinSp] using hq
  | cons r rs2 => simp [joinSp]

theorem trimmed_joinSp (l : List Str) (h : ∀ p ∈ l, Trimmed p ∧ p ≠ []) :
    Trimmed (joinSp l) := by
  induction l with
  | nil => exact ⟨fun c hc => by simp [joinSp] at hc, fun c hc => by simp [joinSp] at hc⟩
  | cons p ps ih =>
    cases ps with
    | nil => exact (h p (by simp)).1
    | cons q rs =>
      have hp := h p (by simp)
      have hq : q ≠ [] := (h q (by simp)).2
      have ihh := ih (fun x hx => h x (by simp [hx]))
      exact trimmed_join p (joinSp (q :: rs)) hp.1 hp.2 ihh (joinSp_ne_nil q rs hq)

theorem cleanFinals_cons (x : Str) (xs : List Str) :
    cleanFinals (x :: xs) =
      if (trim x).isEmpty then cleanFinals xs else trim x :: cleanFinals xs := by
  by_cases h : (trim x).isEmpty
  · simp [cleanFinals, List.filter_cons, h]
  · simp [cleanFinals, List.filter_cons, h]

theorem mem_cleanFinals (fs : List Str) (p : Str) (hp : p ∈ cleanFinals fs) :
    Trimmed p ∧ p ≠ [] := by
  unfold cleanFinals at hp
  rcases List.mem_filter.mp hp with ⟨hmem, hne⟩
  rcases List.mem_map.mp hmem with ⟨x, _, rfl⟩
  refine ⟨trimmed_trim x, fun he => ?_⟩
  rw [he] at hne
  simp at hne

/-- The dictation fold: starting from any trimmed draft, folding `final`
texts through `appendFinalText` yields the single-space join of the draft
followed by the trimmed nonempty texts. -/
theorem applyFinals_currentPrompt (fs : List Str) (s : St)
    (h : Trimmed s.currentPrompt) :
    (applyFinals s fs).currentPrompt = joinSp (cleanFinals (s.currentPrompt :: fs)) := by
  induction fs generalizing s with
  | nil =>
    show s.currentPrompt = joinSp (cleanFinals [s.currentPrompt])
    rw [cleanFinals_cons, trim_eq_self _ h]
    by_cases hd : s.currentPrompt.isEmpty
    · rw [if_pos hd]
      have hdn : s.currentPrompt = [] := by simpa using hd
      simp [joinSp, hdn]
    · rw [if_neg hd]
      rfl
  | cons t rest ih =>
    show (applyFinals (appendFinalText t s) rest).currentPrompt = _
    by_cases ht : (trim t).isEmpty
    · have he : appendFinalText t s = s := by simp [appendFinalText, ht]
      rw [he, ih s h]
      rw [cleanFinals_cons s.currentPrompt (t :: rest),
        cleanFinals_cons s.currentPrompt rest, cleanFinals_cons t rest, if_pos ht]
    · have htne : trim t ≠ [] := fun he => by simp [he] at ht
      have hd' : trim s.currentPrompt = s.currentPrompt := trim_eq_self _ h
      by_cases hd : s.currentPrompt.isEmpty
      · have hdn : s.currentPrompt = [] := by simpa using hd
        have hstep : appendFinalText t s =
            refreshPromptView { s with currentPrompt := trim t, lastPartial := none } := by
          simp [appendFinalText, ht, hd', hd]
        rw [hstep]
        have h1 : Trimmed (refreshPromptView
            { s with currentPrompt := trim t, lastPartial := none }).currentPrompt := by
          simpa [refreshPromptView] using trimmed_trim t
        rw [ih _ h1]
        simp only [refreshPromptView]
        rw [cleanFinals_cons (trim t) rest, trim_idem, if_neg ht,
          cleanFinals_cons s.currentPrompt (t :: rest), hd', if_pos hd,
          cleanFinals_cons t rest, if_neg ht]
      · have hdne : s.currentPrompt ≠ [] := fun he => by simp [he] at hd
        have hstep : appendFinalText t s =
            refreshPromptView { s with
              currentPrompt := s.currentPrompt ++ ' ' :: trim t,
              lastPartial := none } := by
          simp [appendFinalText, ht, hd', hd]
        rw [hstep]
        have hNtr : Trimmed (s.currentPrompt ++ ' ' :: trim t) :=
          trimmed_join _ _ h hdne (trimmed_trim t) htne
        have h1 : Trimmed (refreshPromptView { s with
            currentPrompt := s.currentPrompt ++ ' ' :: trim t,
            lastPartial := none }).currentPrompt := by
          simpa [refreshPromptView] using hNtr
        rw [ih _ h1]
        simp only [refreshPromptView]
        rw [cleanFinals_cons (s.currentPrompt ++ ' ' :: trim t) rest,
          trim_eq_self _ hNtr, if_neg (by simp),
          cleanFinals_cons s.currentPrompt (t :: rest), hd', if_neg hd,
          cleanFinals_cons t rest, if_neg ht]
        exact joinSp_shift s.currentPrompt (trim t) (cleanFinals rest)

/-- Claim C2: starting from an empty Draft, a sequence of Final texts
folded through `appendFinalText` produces exactly the single-space join of
the individually trimmed nonempty texts, and the result carries no leading
or trailing whitespace. -/
theorem finals_accumulate_space_joined (fs : List Str) (s : St)
    (_hrec : s.isRecording = true) (hd : s.currentPrompt = []) :
    (applyFinals s fs).currentPrompt = joinSp (cleanFinals fs)
    ∧ Trimmed ((applyFinals s fs).currentPrompt) := by
  have h0 : Trimmed s.currentPrompt := by
    rw [hd]
    exact ⟨fun c hc => by simp at hc, fun c hc => by simp at hc⟩
  have hmain := applyFinals_currentPrompt fs s h0
  have hcc : cleanFinals (s.currentPrompt :: fs) = cleanFinals fs := by
    rw [cleanFinals_cons, hd]
    simp [trim]
  rw [hmain, hcc]
  exact ⟨rfl, trimmed_joinSp _ (fun p hp => mem_cleanFinals fs p hp)⟩

/-- Witness for C2: three final texts, one of them whitespace-only, starting
from a freshly started recording state. -/
theorem finals_accumulate_space_joined_witness :
    (applyFinals { initSt ("/m".data) with isRecording := true }
        [" hello ".data, "  ".data, "world  ".data]).currentPrompt
      = joinSp (cleanFinals [" hello ".data, "  ".data, "world  ".data])
    ∧ Trimmed ((applyFinals { initSt ("/m".data) with isRecording := true }
        [" hello ".data, "  ".data, "world  ".data]).currentPrompt) :=
  finals_accumulate_space_joined _ _ rfl rfl

/-!  ## Theorems: event handling and the recording flag  -/

/-- Claim C1 counterexample: with recording off (as after `stop()`) and
Draft `"draft"`, a delivered Final event with text `"late"` is applied
anyway — the Draft becomes `"draft late"`.  `handleSttEvent` performs no
`isRecording` check. -/
theorem c1_final_applied_while_idle :
    ({ initSt ("/m".data) with currentPrompt := "draft".data } : St).isRecording = false
    ∧ (onStdoutLine (.parsed ⟨some ("final".data), some ("late".data), none⟩)
        { initSt ("/m".data) with currentPrompt := "draft".data }).currentPrompt
      = "draft late".data
    ∧ (onStdoutLine (.parsed ⟨some ("final".data), some ("late".data), none⟩)
        { initSt ("/m".data) with currentPrompt := "draft".data }).currentPrompt
      ≠ ({ initSt ("/m".data) with currentPrompt := "draft".data } : St).currentPrompt := by
  decide

/-- Claim C1 amended: Partial and Final events are applied regardless of the
recording flag — a Final delivered while `isRecording` is false still
appends its trimmed text to the Draft, and a Partial still overwrites the
live partial. -/
theorem events_applied_regardless_of_state (s : St) (t : Str)
    (_hrec : s.isRecording = false) (ht : (trim t).isEmpty = false) :
    (onStdoutLine (.parsed ⟨some ("final".data), some t, none⟩) s).currentPrompt
      = (if !(trim s.currentPrompt).isEmpty then trim s.currentPrompt ++ ' ' :: trim t
         else trim t)
    ∧ (onStdoutLine (.parsed ⟨some ("partial".data), some t, none⟩) s).lastPartial
      = some t := by
  have hne : (some ("final".data) : Option Str) ≠ some ("partial".data) := by decide
  constructor
  · simp [onStdoutLine, handleSttEvent, appendFinalText, refreshPromptView, ht, hne]
  · simp [onStdoutLine, handleSttEvent, refreshPromptView]

/-- Witness for the C1 amended theorem at a stopped state with Draft
`"draft"` and final text `"late"`. -/
theorem events_applied_regardless_of_state_witness :
    (onStdoutLine (.parsed ⟨some ("final".data), some ("late".data), none⟩)
        { initSt ("/m".data) with currentPrompt := "draft".data }).currentPrompt
      = (if !(trim ({ initSt ("/m".data) with currentPrompt := "draft".data } : St).currentPrompt).isEmpty
         then trim ({ initSt ("/m".data) with currentPrompt := "draft".data } : St).currentPrompt
           ++ ' ' :: trim ("late".data)
         else trim ("late".data))
    ∧ (onStdoutLine (.parsed ⟨some ("partial".data), some ("late".data), none⟩)
        { initSt ("/m".data) with currentPrompt := "draft".data }).lastPartial
      = some ("late".data) :=
  events_applied_regardless_of_state _ _ rfl rfl

/-- Claim C3: a `partial` event overwrites the live partial with exactly its
own text (never accumulating with the previous one), the preview then shows
only that newest partial joined onto the trimmed draft, and a `final` event
carrying text the helper actually emits (the image of `safeParseText`)
clears the live partial. -/
theorem partial_replaces_final_clears (s : St) (t : Str) (u : Option Str) :
    (onStdoutLine (.parsed ⟨some ("partial".data), some t, none⟩) s).lastPartial = some t
    ∧ (s.isRecording = true → (trim t).isEmpty = false →
        renderPromptPreview (onStdoutLine (.parsed ⟨some ("partial".data), some t, none⟩) s)
          = (if !(trim s.currentPrompt).isEmpty then trim s.currentPrompt ++ ' ' :: trim t
             else trim t) ++ " …".data)
    ∧ (safeParseText u = some t →
        (onStdoutLine (.parsed ⟨some ("final".data), some t, none⟩) s).lastPartial = none) := by
  have hne : (some ("final".data) : Option Str) ≠ some ("partial".data) := by decide
  refine ⟨?_, ?_, ?_⟩
  · simp [onStdoutLine, handleSttEvent, refreshPromptView]
  · intro hr ht
    simp [onStdoutLine, handleSttEvent, refreshPromptView, renderPromptPreview, hr, ht]
  · intro hs
    have ht : (trim t).isEmpty = false := by
      rcases u with _ | w
      · simp [safeParseText] at hs
      · simp only [safeParseText] at hs
        split at hs
        · rename_i hc
          have htw : trim w = t := Option.some.inj hs
          have hw : trim w ≠ [] := by
            intro he
            rw [he] at hc
            simp at hc
          rw [← htw, trim_idem]
          exact isEmpty_false_of_ne_nil _ hw
        · exact absurd hs (by simp)
    simp [onStdoutLine, handleSttEvent, appendFinalText, refreshPromptView, ht, hne]

/-- Witness for C3 at a recording state with live partial `"old"`, draft
`"base"`, partial/final text `"hi"`, helper payload `" hi "`. -/
theorem partial_replaces_final_clears_witness :
    (onStdoutLine (.parsed ⟨some ("partial".data), some ("hi".data), none⟩) c3W).lastPartial
      = some ("hi".data)
    ∧ renderPromptPreview
        (onStdoutLine (.parsed ⟨some ("partial".data), some ("hi".data), none⟩) c3W)
      = (if !(trim c3W.currentPrompt).isEmpty
         then trim c3W.currentPrompt ++ ' ' :: trim ("hi".data)
         else trim ("hi".data)) ++ " …".data
    ∧ (onStdoutLine (.parsed ⟨some ("final".data), some ("hi".data), none⟩) c3W).lastPartial
      = none :=
  ⟨(partial_replaces_final_clears c3W ("hi".data) (some (" hi ".data))).1,
   (partial_replaces_final_clears c3W ("hi".data) (some (" hi ".data))).2.1 rfl rfl,
   (partial_replaces_final_clears c3W ("hi".data) (some (" hi ".data))).2.2 (by decide)⟩

/-- Claim C4 counterexample: a malformed line — parsed JSON of type
`partial` with no `text` property — processed while a live partial
`"hello"` exists overwrites (clears) the live partial, so malformed lines
do not all leave the live partial unchanged. -/
theorem c4_missing_text_overwrites_live_partial :
    malformedLine (.parsed ⟨some ("partial".data), none, none⟩) = true
    ∧ ({ initSt ("/m".data) with
          isRecording := true,
          lastPartial := some ("hello".data) } : St).lastPartial = some ("hello".data)
    ∧ (onStdoutLine (.parsed ⟨some ("partial".data), none, none⟩)
        { initSt ("/m".data) with
          isRecording := true,
          lastPartial := some ("hello".data) }).lastPartial = none := by
  decide

/-- Claim C4 amended: a malformed line never changes the Draft or the
machine flags and never raises an error that escapes the line handler
(`onStdoutLine` is total: the throwing path — a `final` with no text —
returns the state unchanged); the live partial too is unchanged, except
that a parsed object of type `partial` overwrites the live partial with its
missing or whitespace-only text. -/
theorem malformed_line_preserves_draft_and_state (l : LineParse) (s : St)
    (h : malformedLine l = true) :
    (onStdoutLine l s).currentPrompt = s.currentPrompt
    ∧ (onStdoutLine l s).isRecording = s.isRecording
    ∧ (onStdoutLine l s).isEditing = s.isEditing
    ∧ (isPartialLine l = false → (onStdoutLine l s).lastPartial = s.lastPartial) := by
  cases l with
  | invalid => exact ⟨rfl, rfl, rfl, fun _ => rfl⟩
  | parsed e =>
    obtain ⟨ty, tx, er⟩ := e
    by_cases h1 : ty = some ("partial".data)
    · subst h1
      refine ⟨?_, ?_, ?_, fun hf => ?_⟩
      · simp [onStdoutLine, handleSttEvent, refreshPromptView]
      · simp [onStdoutLine, handleSttEvent, refreshPromptView]
      · simp [onStdoutLine, handleSttEvent, refreshPromptView]
      · simp [isPartialLine] at hf
    · by_cases h2 : ty = some ("final".data)
      · subst h2
        cases tx with
        | none =>
          refine ⟨?_, ?_, ?_, fun _ => ?_⟩ <;>
            simp [onStdoutLine, handleSttEvent, h1]
        | some t =>
          have ht : (trim t).isEmpty = true := by
            simpa [malformedLine] using h
          refine ⟨?_, ?_, ?_, fun _ => ?_⟩ <;>
            simp [onStdoutLine, handleSttEvent, appendFinalText, h1, ht]
      · by_cases h3 : ty = some ("error".data)
        · subst h3
          refine ⟨?_, ?_, ?_, fun _ => ?_⟩ <;>
            simp [onStdoutLine, handleSttEvent, h1, h2]
        · refine ⟨?_, ?_, ?_, fun _ => ?_⟩ <;>
            simp [onStdoutLine, handleSttEvent, h1, h2, h3]

/-- Witness for the C4 amended theorem at an unparsable line over a
recording state with a live partial. -/
theorem malformed_line_preserves_draft_and_state_witness :
    (onStdoutLine .invalid c3W).currentPrompt = c3W.currentPrompt
    ∧ (onStdoutLine .invalid c3W).isRecording = c3W.isRecording
    ∧ (onStdoutLine .invalid c3W).isEditing = c3W.isEditing
    ∧ (isPartialLine .invalid = false →
        (onStdoutLine .invalid c3W).lastPartial = c3W.lastPartial) :=
  malformed_line_preserves_draft_and_state .invalid c3W rfl

/-!  ## Theorems: session lifecycle  -/

theorem append_ne_nil_left (a b : Str) (ha : a ≠ []) : a ++ b ≠ [] := by
  intro he
  exact ha (List.append_eq_nil.mp he).1

/-- Claim C5 counterexample: with session pid 0 active, calling
`startRecorder` again does not fail: it kills pid 0 and then spawns a
second subprocess, pid 1 — the spawn log grows, contradicting "fails fast
… no second subprocess is spawned". -/
theorem c5_start_while_active_spawns_second :
    (startRecording (initSt ("/m".data))).recorder = some 0
    ∧ (startRecorder (startRecording (initSt ("/m".data)))).spawned = [0, 1]
    ∧ (startRecorder (startRecording (initSt ("/m".data)))).killed = [0]
    ∧ (startRecorder (startRecording (initSt ("/m".data)))).recorder = some 1 := by
  decide

/-- Claim C5 amended: `startRecorder` while a session is active never
fails; it first SIGTERMs the active subprocess and clears its handle, then
spawns and installs exactly one new subprocess — so no two live handles
ever coexist, and the caller need not stop first. -/
theorem start_stops_previous_then_spawns (s : St) (p : Nat)
    (h : s.recorder = some p) :
    (startRecorder s).killed = s.killed ++ [p]
    ∧ (startRecorder s).spawned = s.spawned ++ [s.nextPid]
    ∧ (startRecorder s).recorder = some s.nextPid := by
  simp [startRecorder, stopRecorder, h]

/-- Witness for the C5 amended theorem: restarting over the live pid-0
session of a fresh recording. -/
theorem start_stops_previous_then_spawns_witness :
    (startRecorder (startRecording (initSt ("/m".data)))).killed
      = (startRecording (initSt ("/m".data))).killed ++ [0]
    ∧ (startRecorder (startRecording (initSt ("/m".data)))).spawned
      = (startRecording (initSt ("/m".data))).spawned
        ++ [(startRecording (initSt ("/m".data))).nextPid]
    ∧ (startRecorder (startRecording (initSt ("/m".data)))).recorder
      = some (startRecording (initSt ("/m".data))).nextPid :=
  start_stops_previous_then_spawns _ 0 rfl

/-- Claim C6 counterexample: with the model path missing, start neither
fails nor leaves the machine unchanged — `startRecording` enters Recording
and spawns the helper subprocess (pid 0) unconditionally; the missing-path
check lives inside the helper, which exits 1 with a configuration error on
its own. -/
theorem c6_missing_model_still_spawns :
    sttHelperBoot false ("/missing".data)
      = .configError ("Model path not found: /missing".data) 1
    ∧ (startRecording (initSt ("/missing".data))).spawned = [0]
    ∧ (startRecording (initSt ("/missing".data))).isRecording = true := by
  decide

/-- Claim C6 amended: `startRecording` never consults the filesystem — it
always spawns the helper and enters Recording; when the model path does not
exist it is the helper that fails at boot, printing a configuration error
and exiting with code 1, so the error reaches the caller asynchronously via
the stderr/exit handlers instead of as an immediate failure of start. -/
theorem start_spawns_helper_checks_model (s : St) (p : Str) :
    (startRecording s).isRecording = true
    ∧ (startRecording s).spawned = s.spawned ++ [s.nextPid]
    ∧ sttHelperBoot false p = .configError ("Model path not found: ".data ++ p) 1
    ∧ sttHelperBoot true p = .started := by
  refine ⟨?_, ?_, rfl, rfl⟩
  · cases h : s.recorder <;>
      simp [startRecording, startRecorder, stopRecorder, refreshPromptView, h]
  · cases h : s.recorder <;>
      simp [startRecording, startRecorder, stopRecorder, refreshPromptView, h]

/-- Claim C7: `stopRecording` is idempotent — a second call is exactly a
no-op, a call with recording already off is the identity (no error, no
transition, Draft and session handle untouched), and no call ever changes
the Draft. -/
theorem stop_idempotent (s : St) :
    stopRecording (stopRecording s) = stopRecording s
    ∧ (s.isRecording = false → stopRecording s = s)
    ∧ (stopRecording s).currentPrompt = s.currentPrompt := by
  by_cases h : s.isRecording
  · have h1 : (stopRecording s).isRecording = false := by
      cases hr : s.recorder <;>
        simp [stopRecording, h, refreshPromptView, stopRecorder, hr]
    refine ⟨?_, fun hf => absurd h (by simp [hf]), ?_⟩
    · conv_lhs => rw [stopRecording]
      rw [if_neg (by simp [h1])]
    · cases hr : s.recorder <;>
        simp [stopRecording, h, refreshPromptView, stopRecorder, hr]
  · have hh : stopRecording s = s := by simp [stopRecording, h]
    exact ⟨by rw [hh, hh], fun _ => hh, by rw [hh]⟩

/-- Witness for C7 at the initial (idle) state. -/
theorem stop_idempotent_witness :
    stopRecording (stopRecording (initSt ("/m".data)))
      = stopRecording (initSt ("/m".data))
    ∧ stopRecording (initSt ("/m".data)) = initSt ("/m".data)
    ∧ (stopRecording (initSt ("/m".data))).currentPrompt
      = (initSt ("/m".data)).currentPrompt :=
  ⟨(stop_idempotent _).1, (stop_idempotent _).2.1 rfl, (stop_idempotent _).2.2⟩

/-- Claim C8: a subprocess exit delivered while Recording — in particular
an abnormal one — forces Recording → Idle, produces the non-empty
diagnostic `Recording stopped (detail).` whose detail is the last known
stderr text if any and otherwise the exit code or signal, and leaves the
Draft exactly as accumulated before the fault. -/
theorem abnormal_exit_forces_idle (s : St) (lastStderr : Str)
    (code : Option Int) (signal : Option Str) (h : s.isRecording = true) :
    (onExit lastStderr code signal s).isRecording = false
    ∧ (onExit lastStderr code signal s).currentPrompt = s.currentPrompt
    ∧ (onExit lastStderr code signal s).statusText
      = "Recording stopped (".data ++ exitDetail lastStderr code signal ++ ").".data
    ∧ (onExit lastStderr code signal s).statusText ≠ []
    ∧ exitDetail lastStderr code signal ≠ [] := by
  have hst : (onExit lastStderr code signal s).statusText
      = "Recording stopped (".data ++ exitDetail lastStderr code signal ++ ").".data := by
    simp [onExit, h]
  have hd : exitDetail lastStderr code signal ≠ [] := by
    unfold exitDetail
    split
    · rename_i hc
      intro he
      rw [he] at hc
      simp at hc
    · cases code with
      | some c => exact append_ne_nil_left ("code ".data) _ (by decide)
      | none =>
        cases signal with
        | some sig =>
          by_cases hsig : sig.isEmpty
          · simp only [hsig]
            exact (by decide : ("stt helper exited".data : Str) ≠ [])
          · simp only [isEmpty_false_of_ne_nil sig (fun he => hsig (by rw [he]; rfl))]
            exact append_ne_nil_left _ _ (by decide)
        | none => exact (by decide : ("stt helper exited".data : Str) ≠ [])
  refine ⟨by simp [onExit, h], by simp [onExit, h], hst, ?_, hd⟩
  rw [hst]
  exact append_ne_nil_left ("Recording stopped (".data) _ (by decide)

/-- Witness for C8: signal-terminated exit over the `"draft one"` recording
state, no stderr, no exit code. -/
theorem abnormal_exit_forces_idle_witness :
    (onExit [] none (some ("SIGKILL".data)) c8W).isRecording = false
    ∧ (onExit [] none (some ("SIGKILL".data)) c8W).currentPrompt = c8W.currentPrompt
    ∧ (onExit [] none (some ("SIGKILL".data)) c8W).statusText
      = "Recording stopped (".data ++ exitDetail [] none (some ("SIGKILL".data)) ++ ").".data
    ∧ (onExit [] none (some ("SIGKILL".data)) c8W).statusText ≠ []
    ∧ exitDetail [] none (some ("SIGKILL".data)) ≠ [] :=
  abnormal_exit_forces_idle c8W [] none (some ("SIGKILL".data)) rfl

/-- Claim C9 counterexample: session pid 0 is stopped (its SIGTERM exit
still in flight) and a new session pid 1 starts; when pid 0's expected
termination is delivered, the handler — keyed only on the global recording
flag — forces the new session out of Recording and emits a diagnostic while
pid 1 is still the live handle.  An expected termination is thus not
silent, and the forced transition is not confined to the session that
died. -/
theorem c9_stale_exit_hits_new_session :
    c9Before.isRecording = true
    ∧ c9Before.recorder = some 1
    ∧ c9Before.killed = [0]
    ∧ c9After.isRecording = false
    ∧ c9After.statusText = "Recording stopped (signal SIGTERM).".data
    ∧ c9After.recorder = some 1 := by
  decide

/-- Claim C9 amended: the exit handler classifies a termination solely by
the recording flag at delivery time — delivered while not Recording it is
completely silent (the state is returned untouched), delivered while
Recording it forces the transition and writes the diagnostic, whichever
subprocess exited. -/
theorem exit_silent_iff_not_recording (lastStderr : Str) (code : Option Int)
    (signal : Option Str) (s : St) :
    (s.isRecording = false → onExit lastStderr code signal s = s)
    ∧ (s.isRecording = true →
        (onExit lastStderr code signal s).isRecording = false
        ∧ (onExit lastStderr code signal s).statusText
          = "Recording stopped (".data ++ exitDetail lastStderr code signal ++ ").".data) := by
  constructor
  · intro h
    simp [onExit, h]
  · intro h
    exact ⟨by simp [onExit, h], by simp [onExit, h]⟩

/-- Witness for the C9 amended theorem: a silent delivery at the idle
initial state and a forced one at the `"draft one"` recording state. -/
theorem exit_silent_iff_not_recording_witness :
    onExit [] (some 1) none (initSt ("/m".data)) = initSt ("/m".data)
    ∧ (onExit [] (some 1) none c8W).isRecording = false :=
  ⟨(exit_silent_iff_not_recording [] (some 1) none (initSt ("/m".data))).1 rfl,
   ((exit_silent_iff_not_recording [] (some 1) none c8W).2 rfl).1⟩

/-!  ## Theorems: saving  -/

/-- Claim C10: saving while the Draft trims to empty performs no storage
write and changes nothing except the status message — the result is the
input state with only `statusText` replaced, so the store, the active
prompt id, the creation timestamp and the Draft are all untouched. -/
theorem empty_draft_save_writes_nothing (now : Str) (s : St)
    (h : (trim s.currentPrompt).isEmpty = true) :
    handleSave now s
      = some { s with statusText := "Nothing to save – prompt is empty.".data } := by
  simp [handleSave, h]

/-- Witness for C10: saving a whitespace-only Draft. -/
theorem empty_draft_save_writes_nothing_witness :
    handleSave ("2024-01-01T00:00:00.000Z".data) c10W
      = some { c10W with statusText := "Nothing to save – prompt is empty.".data } :=
  empty_draft_save_writes_nothing _ _ rfl

end GluCode
